import Mathlib

/-!
# Notification delivery and preference engine: a shallow embedding

This file embeds the notification subsystem of the LinkedIn Ghostwriter
backend (`app/services/notification_service.py`,
`app/services/scheduler_service.py`, `app/api/v1/endpoints/notifications.py`,
`app/db/models.py`, `app/schemas/notification.py`) as executable Lean
definitions, and proves properties of channel selection, delivery logging,
retry with exponential backoff, the daily-reminder scheduler tick, and the
settings endpoints.

Modelling conventions:
* Database tables are lists of rows; `query(...).filter(...).first()` is
  `List.find?`; `db.add` + `db.commit` appends a row.
* The two network adapters (Telegram bot send, SMTP send) are I/O
  boundaries.  Their outcome is supplied by an environment oracle keyed by
  an invocation counter (`tick`): `none` means the transport call
  succeeded, `some e` means it raised and was caught with error string `e`.
  This mirrors the Python code, whose `try` blocks convert every transport
  exception into `(False, error_string)` and which returns `(True, None)`
  on success.
* Python truthiness of optional strings (`if not user.telegram_chat_id`)
  treats both `None` and `""` as falsy; `pyTruthyStr` reproduces that.
* `asyncio.sleep` durations are recorded in a `sleeps` list instead of
  actually waiting; the per-attempt `(success, error)` results are recorded
  in an `outcomes` list so that theorems can speak about attempt counts.
* An unhandled Python exception is modelled as `none` in an
  `Option`-valued result.
-/

namespace Ghostwriter

/-- Python truthiness of an optional string: `None` and `""` are falsy. -/
def pyTruthyStr : Option String → Bool
  | none => false
  | some s => !(s == "")

/-- Python truthiness of an optional integer: `None` and `0` are falsy. -/
def pyTruthyOptNat : Option Nat → Bool
  | none => false
  | some n => !(n == 0)

/-- Rendering of a Python `Optional[str]` inside an f-string:
`None` prints as `"None"`, a string prints as itself. -/
def pyStrOfOpt : Option String → String
  | none => "None"
  | some s => s

/-- Python `str.title()` for the strings that reach it here
(single lowercase words such as `"draft"`, `"published"`, `"auto"`):
uppercase a letter that follows a non-letter, lowercase the rest. -/
def pyTitleGo : Bool → List Char → List Char
  | _, [] => []
  | prevAlpha, c :: cs =>
    (if c.isAlpha then (if prevAlpha then c.toLower else c.toUpper) else c)
      :: pyTitleGo c.isAlpha cs

/-- Python `str.title()`. -/
def pyTitle (s : String) : String := String.mk (pyTitleGo false s.toList)

/-- Zero-padded two-digit rendering (`%H`, `%M`, `%d`, `%m`, and pydantic's
time serialization components). -/
def pad2 (n : Nat) : String := (if n < 10 then "0" else "") ++ toString n

/-- Zero-padded four-digit rendering (`%Y`). -/
def pad4 (n : Nat) : String :=
  (if n < 10 then "000" else if n < 100 then "00" else if n < 1000 then "0" else "")
    ++ toString n

/-- A time-of-day value (`datetime.time`). -/
structure PyTime where
  hour : Nat
  minute : Nat
  second : Nat
  deriving Repr, DecidableEq

/-- Pydantic's wire serialization of a `datetime.time`: zero-padded
`HH:MM:SS`. -/
def timeToStr (t : PyTime) : String :=
  pad2 t.hour ++ ":" ++ pad2 t.minute ++ ":" ++ pad2 t.second

/-- A timestamp (`datetime.datetime`), to the precision used by
`strftime('%Y-%m-%d %H:%M')`. -/
structure PyDateTime where
  year : Nat
  month : Nat
  day : Nat
  hour : Nat
  minute : Nat
  deriving Repr, DecidableEq

/-- `created_at.strftime('%Y-%m-%d %H:%M')`. -/
def strftimeYmdHM (d : PyDateTime) : String :=
  pad4 d.year ++ "-" ++ pad2 d.month ++ "-" ++ pad2 d.day ++ " "
    ++ pad2 d.hour ++ ":" ++ pad2 d.minute

/-- Row of the `users` table (`app/db/models.py`, class `User`); only the
columns the notification subsystem reads. -/
structure UserRow where
  id : Nat
  email : String
  telegram_chat_id : Option String
  deriving Repr, DecidableEq

/-- Row of the `notification_preferences` table
(`app/db/models.py`, class `NotificationPreferences`). -/
structure NotificationPreferencesRow where
  user_id : Nat
  receive_email_notifications : Bool
  receive_telegram_notifications : Bool
  daily_reminder_enabled : Bool
  daily_reminder_time : PyTime
  deriving Repr, DecidableEq

/-- Row of the `posts` table (`app/db/models.py`, class `Post`); only the
columns the notification subsystem reads. -/
structure PostRow where
  id : Nat
  user_id : Nat
  content : String
  template_id : Option Nat
  generation_mode : String
  status : String
  created_at : PyDateTime
  deriving Repr, DecidableEq

/-- Row of the `delivery_logs` table (`app/db/models.py`, class
`DeliveryLog`). -/
structure DeliveryLogRow where
  user_id : Nat
  post_id : Option Nat
  channel : String
  status : String
  error_message : Option String
  deriving Repr, DecidableEq

/-- The relational state the notification subsystem touches. -/
structure DB where
  users : List UserRow
  preferences : List NotificationPreferencesRow
  posts : List PostRow
  delivery_logs : List DeliveryLogRow
  deriving Repr, DecidableEq

/-- The external world: service configuration (environment variables read in
`NotificationService.__init__`) and the outcome of each network transport
call.  `telegramTransport n` (resp. `emailTransport n`) is the outcome of
the `n`-th transport invocation overall: `none` = the send succeeded,
`some e` = it raised and the adapter caught it as error string `e`. -/
structure Env where
  telegram_bot_configured : Bool
  smtp_username : Option String
  smtp_password : Option String
  telegramTransport : Nat → Option String
  emailTransport : Nat → Option String

/-- Mutable state threaded through the engine: the database plus the count
of transport invocations made so far (the oracle key). -/
structure SendState where
  db : DB
  tick : Nat
  deriving Repr, DecidableEq

/-- `NotificationService.send_telegram_message`: guard on the bot being
configured, then one transport call whose exceptions become
`(False, error)`; returns `(True, None)` on success.  The message text,
post id and action buttons are passed to the transport but do not influence
the modelled outcome. -/
def send_telegram_message (env : Env) (tick : Nat)
    (_chat_id : String) (_message : String) (_post_id : Option Nat)
    (_include_actions : Bool) : (Bool × Option String) × Nat :=
  if env.telegram_bot_configured then
    match env.telegramTransport tick with
    | none => ((true, none), tick + 1)
    | some e => ((false, some e), tick + 1)
  else ((false, some "Telegram bot not configured"), tick)

/-- `NotificationService.send_email`: guard on SMTP credentials (Python
truthiness, so `None` or `""` both fail), then one transport call whose
exceptions become `(False, error)`; returns `(True, None)` on success. -/
def send_email (env : Env) (tick : Nat)
    (_to_email : String) (_subject : String) (_body : String)
    (_html_body : Option String) : (Bool × Option String) × Nat :=
  if !(pyTruthyStr env.smtp_username) || !(pyTruthyStr env.smtp_password) then
    ((false, some "SMTP credentials not configured"), tick)
  else
    match env.emailTransport tick with
    | none => ((true, none), tick + 1)
    | some e => ((false, some e), tick + 1)

/-- `NotificationService.log_delivery`: append one `DeliveryLog` row and
commit. -/
def log_delivery (db : DB) (user_id : Nat) (post_id : Option Nat)
    (channel : String) (status : String) (error_message : Option String) : DB :=
  { db with delivery_logs :=
      db.delivery_logs ++ [⟨user_id, post_id, channel, status, error_message⟩] }

@[simp] theorem log_delivery_users (db : DB) (u : Nat) (p : Option Nat)
    (c s : String) (e : Option String) :
    (log_delivery db u p c s e).users = db.users := rfl

@[simp] theorem log_delivery_preferences (db : DB) (u : Nat) (p : Option Nat)
    (c s : String) (e : Option String) :
    (log_delivery db u p c s e).preferences = db.preferences := rfl

@[simp] theorem log_delivery_posts (db : DB) (u : Nat) (p : Option Nat)
    (c s : String) (e : Option String) :
    (log_delivery db u p c s e).posts = db.posts := rfl

@[simp] theorem log_delivery_logs (db : DB) (u : Nat) (p : Option Nat)
    (c s : String) (e : Option String) :
    (log_delivery db u p c s e).delivery_logs
      = db.delivery_logs ++ [⟨u, p, c, s, e⟩] := rfl

/-- `NotificationService._format_post_message`. -/
def format_post_message (post : PostRow) : String :=
  let header := "📝 <b>New LinkedIn Post Generated!</b>\n\n"
  let content := post.content ++ "\n\n"
  let footer := "---\n"
    ++ (if post.generation_mode == "auto" && pyTruthyOptNat post.template_id then
          "Generated using template-driven mode\n"
        else
          "Generated using manual mode\n")
    ++ "Status: " ++ pyTitle post.status
  header ++ content ++ footer

/-- `NotificationService._format_post_html_email`. -/
def format_post_html_email (post : PostRow) : String :=
  "\n        <html>\n        <body style=\"font-family: Arial, sans-serif; max-width: 600px; margin: 0 auto; padding: 20px;\">\n"
    ++ "            <h2 style=\"color: #0077B5;\">📝 New LinkedIn Post Generated!</h2>\n"
    ++ "            <div style=\"background-color: #f3f6f8; padding: 20px; border-radius: 8px; margin: 20px 0;\">\n"
    ++ "                <p style=\"white-space: pre-wrap; line-height: 1.6;\">" ++ post.content ++ "</p>\n"
    ++ "            </div>\n"
    ++ "            <hr style=\"border: none; border-top: 1px solid #e0e0e0; margin: 20px 0;\">\n"
    ++ "            <p style=\"color: #666; font-size: 14px;\">\n"
    ++ "                <strong>Mode:</strong> " ++ pyTitle post.generation_mode ++ "<br>\n"
    ++ "                <strong>Status:</strong> " ++ pyTitle post.status ++ "<br>\n"
    ++ "                <strong>Created:</strong> " ++ strftimeYmdHM post.created_at ++ "\n"
    ++ "            </p>\n"
    ++ "            <p style=\"color: #999; font-size: 12px; margin-top: 30px;\">\n"
    ++ "                This is an automated message from LinkedIn Ghostwriter.\n"
    ++ "            </p>\n"
    ++ "        </body>\n        </html>\n        "

/-- The channel-dispatch and logging tail of
`NotificationService.send_post_notification`: format the message, invoke the
appropriate adapter (skipping it when the Telegram destination is not
configured, or the channel name is invalid), then write exactly one
`DeliveryLog` row with status `delivered`/`failed`. -/
def send_post_notification_core (env : Env) (s : SendState) (user_id : Nat)
    (post : PostRow) (channel : String) (user : UserRow) :
    (Bool × Option String) × SendState :=
  let message := format_post_message post
  let (result, tick) :=
    if channel == "telegram" then
      if !(pyTruthyStr user.telegram_chat_id) then
        ((false, some "Telegram chat ID not configured"), s.tick)
      else
        send_telegram_message env s.tick
          (user.telegram_chat_id.getD "") message (some post.id) true
    else if channel == "email" then
      send_email env s.tick user.email "Your LinkedIn Ghostwriter Post Draft"
        message (some (format_post_html_email post))
    else
      ((false, some ("Invalid channel: " ++ channel)), s.tick)
  let db := log_delivery s.db user_id (some post.id) channel
      (if result.1 then "delivered" else "failed") result.2
  (result, { db := db, tick := tick })

/-- `NotificationService.send_post_notification`: user lookup, preference
lookup, disabled-channel short-circuits (these return before any adapter
call or log write), then the dispatch-and-log tail. -/
def send_post_notification (env : Env) (s : SendState) (user_id : Nat)
    (post : PostRow) (channel : String) : (Bool × Option String) × SendState :=
  match s.db.users.find? (fun u => u.id == user_id) with
  | none => ((false, some "User not found"), s)
  | some user =>
    match s.db.preferences.find? (fun p => p.user_id == user_id) with
    | some preferences =>
      if channel == "email" && !preferences.receive_email_notifications then
        ((false, some "Email notifications disabled"), s)
      else if channel == "telegram" && !preferences.receive_telegram_notifications then
        ((false, some "Telegram notifications disabled"), s)
      else
        send_post_notification_core env s user_id post channel user
    | none => send_post_notification_core env s user_id post channel user

/-- The fixed reminder message body built by
`NotificationService.send_daily_reminder`. -/
def daily_reminder_message : String :=
  "📅 <b>Daily Reminder</b>\n\n"
    ++ "Time to create your next LinkedIn post! 🚀\n\n"
    ++ "Keep your posting streak going and engage your audience.\n\n"
    ++ "Click here to get started → /create"

/-- The email-fallback tail of `NotificationService.send_daily_reminder`:
if email notifications are enabled, attempt the email adapter — on success
write one `delivered` row and return `(True, None)`, on failure return
`(False, error)` (note: no log row is written for the failed attempt);
otherwise return `(False, "No notification channels enabled")`. -/
def send_daily_reminder_email_fallback (env : Env) (s : SendState)
    (user_id : Nat) (preferences : NotificationPreferencesRow)
    (user : UserRow) (message : String) : (Bool × Option String) × SendState :=
  if preferences.receive_email_notifications then
    let (res, tick) :=
      send_email env s.tick user.email
        "Daily Reminder: Create Your LinkedIn Post"
        ((message.replace "<b>" "").replace "</b>" "")
        (some ("<html><body><p>" ++ message ++ "</p></body></html>"))
    if res.1 then
      ((true, none),
        { db := log_delivery s.db user_id none "email" "delivered" none,
          tick := tick })
    else
      ((false, res.2), { s with tick := tick })
  else
    ((false, some "No notification channels enabled"), s)

/-- `NotificationService.send_daily_reminder`: user and preference lookup,
the reminders-enabled guard, then Telegram first (when enabled and a chat id
is configured in the Python-truthy sense) with fallback to email.  Only
successful attempts write a log row. -/
def send_daily_reminder (env : Env) (s : SendState) (user_id : Nat) :
    (Bool × Option String) × SendState :=
  match s.db.users.find? (fun u => u.id == user_id) with
  | none => ((false, some "User not found"), s)
  | some user =>
    match s.db.preferences.find? (fun p => p.user_id == user_id) with
    | none => ((false, some "Daily reminders not enabled"), s)
    | some preferences =>
      if !preferences.daily_reminder_enabled then
        ((false, some "Daily reminders not enabled"), s)
      else
        let message := daily_reminder_message
        if preferences.receive_telegram_notifications
            && pyTruthyStr user.telegram_chat_id then
          let (res, tick) :=
            send_telegram_message env s.tick
              (user.telegram_chat_id.getD "") message none false
          if res.1 then
            ((true, none),
              { db := log_delivery s.db user_id none "telegram" "delivered" none,
                tick := tick })
          else
            send_daily_reminder_email_fallback env { s with tick := tick }
              user_id preferences user message
        else
          send_daily_reminder_email_fallback env s user_id preferences user message

/-- The observable outcome of one `retry_send` call. -/
structure RetryResult where
  /-- The `(success, error)` pair returned to the caller. -/
  result : Bool × Option String
  /-- The database and transport-counter state after the call. -/
  state : SendState
  /-- The durations passed to `asyncio.sleep`, in order. -/
  sleeps : List Nat
  /-- The `(success, error)` results of the `send_post_notification`
  attempts, in order. -/
  outcomes : List (Bool × Option String)

/-- The attempt loop of `NotificationService.retry_send`, by remaining fuel
(`max_retries - attempt`).  `lastErr` tracks the Python loop-local variable
`error`: `none` means it was never assigned, so the `return` after an empty
loop raises an unhandled `UnboundLocalError` — modelled as the `none`
result. -/
def retry_send_go (env : Env) (user_id : Nat) (post : PostRow)
    (post_id : Nat) (channel : String) (max_retries : Int) :
    Nat → Nat → SendState → List Nat → List (Bool × Option String) →
      Option (Option String) → Option RetryResult
  | 0, _, s, sleeps, outcomes, lastErr =>
    match lastErr with
    | none => none
    | some e =>
      some ⟨(false, some ("Failed after " ++ toString max_retries
          ++ " attempts: " ++ pyStrOfOpt e)), s, sleeps, outcomes⟩
  | fuel + 1, attempt, s, sleeps, outcomes, _ =>
    let sleeps := if 0 < attempt then sleeps ++ [2 ^ attempt] else sleeps
    let res := send_post_notification env s user_id post channel
    if res.1.1 then
      let s2 :=
        if 0 < attempt then
          { res.2 with
            db := log_delivery res.2.db user_id (some post_id) channel "retried" none }
        else res.2
      some ⟨(true, none), s2, sleeps, outcomes ++ [res.1]⟩
    else
      retry_send_go env user_id post post_id channel max_retries fuel
        (attempt + 1) res.2 sleeps (outcomes ++ [res.1]) (some res.1.2)

/-- `NotificationService.retry_send`: post lookup, then the attempt loop
`for attempt in range(max_retries)` with exponential backoff
`asyncio.sleep(2 ** attempt)` before every attempt after the first; on the
first success at a non-first attempt one extra `retried` row is logged; if
all attempts fail, returns the last error wrapped in a
`"Failed after ... attempts: ..."` message. -/
def retry_send (env : Env) (s : SendState) (user_id : Nat) (post_id : Nat)
    (channel : String) (max_retries : Int) : Option RetryResult :=
  match s.db.posts.find? (fun p => p.id == post_id) with
  | none => some ⟨(false, some "Post not found"), s, [], []⟩
  | some post =>
    retry_send_go env user_id post post_id channel max_retries
      max_retries.toNat 0 s [] [] none

/-- The firing test of `SchedulerService.check_and_send_reminders` for one
preference row: the configured hour equals the current hour and the
configured minute is within 15 minutes of the current minute
(`abs(reminder_minute - current_minute) < 15` on Python ints). -/
def reminder_matches (reminder_time : PyTime)
    (current_hour current_minute : Nat) : Bool :=
  reminder_time.hour == current_hour
    && ((reminder_time.minute : Int) - (current_minute : Int)).natAbs < 15

/-- Result of one scheduler tick: the final state plus the user ids for
which the reminder-send path was invoked, in order. -/
structure TickResult where
  state : SendState
  invoked : List Nat
  deriving Repr

/-- The per-row loop of `SchedulerService.check_and_send_reminders`.  The
call to `send_daily_reminder` sits inside a `try/except` that logs and
continues, so an exception for one user (oracle `raises`) never stops the
iteration; `invoked` records each user for which the send path was
invoked. -/
def check_and_send_reminders_go (env : Env) (raises : Nat → Bool)
    (current_hour current_minute : Nat) :
    List NotificationPreferencesRow → SendState → List Nat → TickResult
  | [], s, invoked => ⟨s, invoked⟩
  | prefs :: rest, s, invoked =>
    if reminder_matches prefs.daily_reminder_time current_hour current_minute then
      let invoked := invoked ++ [prefs.user_id]
      let s := if raises prefs.user_id then s
               else (send_daily_reminder env s prefs.user_id).2
      check_and_send_reminders_go env raises current_hour current_minute
        rest s invoked
    else
      check_and_send_reminders_go env raises current_hour current_minute
        rest s invoked

/-- `SchedulerService.check_and_send_reminders`: one hourly tick.  Query all
preference rows with `daily_reminder_enabled`, and for each row whose
configured time matches the current hour/minute window, invoke the
reminder-send path, isolating per-user exceptions.  (The rows store a
`Time` column, so the `isinstance` branch for string-typed times is never
taken.) -/
def check_and_send_reminders (env : Env) (raises : Nat → Bool)
    (s : SendState) (current_hour current_minute : Nat) : TickResult :=
  let preferences_list := s.db.preferences.filter (fun p => p.daily_reminder_enabled)
  check_and_send_reminders_go env raises current_hour current_minute
    preferences_list s []

/-- `GET /notifications/settings`
(`app/api/v1/endpoints/notifications.py`, `get_notification_settings`):
return the caller's preference row, lazily creating it with the explicit
defaults `receive_email_notifications=True`,
`receive_telegram_notifications=True`, `daily_reminder_enabled=False`,
`daily_reminder_time=time(9, 0, 0)` when absent. -/
def get_notification_settings (db : DB) (current_user_id : Nat) :
    NotificationPreferencesRow × DB :=
  match db.preferences.find? (fun p => p.user_id == current_user_id) with
  | some preferences => (preferences, db)
  | none =>
    let preferences : NotificationPreferencesRow :=
      { user_id := current_user_id
        receive_email_notifications := true
        receive_telegram_notifications := true
        daily_reminder_enabled := false
        daily_reminder_time := ⟨9, 0, 0⟩ }
    (preferences, { db with preferences := db.preferences ++ [preferences] })

/-- The request body of `PUT /notifications/settings`
(`app/schemas/notification.py`, `UpdateNotificationSettingsRequest`); all
fields optional. -/
structure UpdateNotificationSettingsRequest where
  receive_email_notifications : Option Bool := none
  receive_telegram_notifications : Option Bool := none
  daily_reminder_enabled : Option Bool := none
  daily_reminder_time : Option String := none
  telegram_chat_id : Option String := none

/-- The pydantic field pattern on `daily_reminder_time`:
`([01]\d|2[0-3]):([0-5]\d):([0-5]\d)` anchored at both ends. -/
def matchesTimePattern (s : String) : Bool :=
  match s.toList with
  | [h1, h2, c1, m1, m2, c2, s1, s2] =>
    ((h1 == '0' || h1 == '1') && h2.isDigit
      || h1 == '2' && ('0' ≤ h2 && h2 ≤ '3'))
    && c1 == ':' && ('0' ≤ m1 && m1 ≤ '5') && m2.isDigit
    && c2 == ':' && ('0' ≤ s1 && s1 ≤ '5') && s2.isDigit
  | _ => false

/-- Python `s.split(sep)` on a character list: split at every occurrence of
the separator, keeping empty pieces (so `"".split(':') == [""]`). -/
def pySplitGo (sep : Char) : List Char → List Char → List String
  | [], acc => [String.mk acc.reverse]
  | c :: cs, acc =>
    if c == sep then String.mk acc.reverse :: pySplitGo sep cs []
    else pySplitGo sep cs (c :: acc)

/-- Python `s.split(sep)` for a single-character separator. -/
def pySplit (s : String) (sep : Char) : List String :=
  pySplitGo sep s.toList []

/-- Python `int(s)` for the strings reachable here (pure digit strings):
`none` models the `ValueError` on anything else. -/
def pyIntParse (s : String) : Option Nat :=
  let cs := s.toList
  if !cs.isEmpty && cs.all Char.isDigit then
    some (cs.foldl (fun acc c => acc * 10 + (c.toNat - '0'.toNat)) 0)
  else none

/-- The handler's time parsing: `s.split(':')`, `int(...)` on the first two
or three parts, `time(hour, minute, second)`.  `none` models the
`ValueError`/`IndexError` the handler converts into an HTTP 400: too few
parts, a non-numeric part, or an out-of-range component. -/
def pyParseTime (s : String) : Option PyTime :=
  match pySplit s ':' with
  | p0 :: p1 :: rest =>
    match pyIntParse p0, pyIntParse p1,
        (match rest with | [] => some 0 | p2 :: _ => pyIntParse p2) with
    | some h, some m, some sec =>
      if h ≤ 23 && m ≤ 59 && sec ≤ 59 then some ⟨h, m, sec⟩ else none
    | _, _, _ => none
  | _ => none

/-- An HTTP outcome: `ok` with a response body, or `clientError` with a
status code. -/
inductive HttpResponse (α : Type) where
  | ok : α → HttpResponse α
  | clientError : Nat → HttpResponse α
  deriving Repr, DecidableEq

/-- A fresh `NotificationPreferences(user_id=...)` row as created by the
update handler, carrying the column defaults of `app/db/models.py`. -/
def defaultPreferencesRow (user_id : Nat) : NotificationPreferencesRow :=
  { user_id := user_id
    receive_email_notifications := true
    receive_telegram_notifications := true
    daily_reminder_enabled := false
    daily_reminder_time := ⟨9, 0, 0⟩ }

/-- The handler body of `PUT /notifications/settings` (post-validation):
fields present in the request overwrite the (found or freshly created) row;
a time string that fails to parse raises HTTP 400 before the commit, so the
database is left unchanged; otherwise the row (and, when requested, the
user's `telegram_chat_id`) is committed. -/
def update_notification_settings_handler (db : DB) (current_user_id : Nat)
    (settings : UpdateNotificationSettingsRequest) :
    HttpResponse NotificationPreferencesRow × DB :=
  let found := db.preferences.find? (fun p => p.user_id == current_user_id)
  let p0 := found.getD (defaultPreferencesRow current_user_id)
  let p1 := match settings.receive_email_notifications with
    | some b => { p0 with receive_email_notifications := b }
    | none => p0
  let p2 := match settings.receive_telegram_notifications with
    | some b => { p1 with receive_telegram_notifications := b }
    | none => p1
  let p3 := match settings.daily_reminder_enabled with
    | some b => { p2 with daily_reminder_enabled := b }
    | none => p2
  let parsed : Option (Option PyTime) :=
    match settings.daily_reminder_time with
    | some tstr =>
      (match pyParseTime tstr with
       | some t => some (some t)
       | none => none)
    | none => some none
  match parsed with
  | none => (.clientError 400, db)
  | some timeUpdate =>
    let p4 := match timeUpdate with
      | some t => { p3 with daily_reminder_time := t }
      | none => p3
    let users := match settings.telegram_chat_id with
      | some cid =>
        db.users.map (fun u =>
          if u.id == current_user_id then { u with telegram_chat_id := some cid } else u)
      | none => db.users
    let preferences :=
      match found with
      | some _ =>
        db.preferences.map (fun q =>
          if q.user_id == current_user_id then p4 else q)
      | none => db.preferences ++ [p4]
    (.ok p4, { db with users := users, preferences := preferences })

/-- `PUT /notifications/settings`
(`app/api/v1/endpoints/notifications.py`, `update_notification_settings`),
including the request-body validation stage that precedes the handler:
FastAPI rejects a `daily_reminder_time` violating the pydantic pattern with
HTTP 422 before the handler runs (`app/main.py` installs no custom
validation handler), so no preference is touched. -/
def update_notification_settings (db : DB) (current_user_id : Nat)
    (settings : UpdateNotificationSettingsRequest) :
    HttpResponse NotificationPreferencesRow × DB :=
  match settings.daily_reminder_time with
  | some tstr =>
    if !(matchesTimePattern tstr) then (.clientError 422, db)
    else update_notification_settings_handler db current_user_id settings
  | none => update_notification_settings_handler db current_user_id settings

/-! ### Concrete fixtures used by witnesses and counterexamples -/

/-- Fixture: a user with no Telegram chat id configured. -/
def userA : UserRow := { id := 1, email := "a@example.com", telegram_chat_id := none }

/-- Fixture: a user with a Telegram chat id. -/
def userB : UserRow := { id := 2, email := "b@example.com", telegram_chat_id := some "555" }

/-- Fixture: user 1's preferences — email on, Telegram off, daily reminder
on at 09:05. -/
def prefsA : NotificationPreferencesRow :=
  { user_id := 1, receive_email_notifications := true,
    receive_telegram_notifications := false, daily_reminder_enabled := true,
    daily_reminder_time := ⟨9, 5, 0⟩ }

/-- Fixture: user 2's preferences — everything on, daily reminder at 09:05. -/
def prefsB : NotificationPreferencesRow :=
  { user_id := 2, receive_email_notifications := true,
    receive_telegram_notifications := true, daily_reminder_enabled := true,
    daily_reminder_time := ⟨9, 5, 0⟩ }

/-- Fixture: user 1's preferences with every channel enabled. -/
def prefsAllOn1 : NotificationPreferencesRow :=
  { user_id := 1, receive_email_notifications := true,
    receive_telegram_notifications := true, daily_reminder_enabled := true,
    daily_reminder_time := ⟨9, 0, 0⟩ }

/-- Fixture: a post owned by user 1. -/
def postA : PostRow :=
  { id := 7, user_id := 1, content := "Hello LinkedIn", template_id := none,
    generation_mode := "manual", status := "draft",
    created_at := ⟨2024, 1, 2, 3, 4⟩ }

/-- Fixture database: two users, their preference rows, one post, no logs. -/
def dbA : DB := ⟨[userA, userB], [prefsA, prefsB], [postA], []⟩

/-- Fixture database: user 1 with all channels enabled. -/
def dbAllOn : DB := ⟨[userA, userB], [prefsAllOn1, prefsB], [postA], []⟩

/-- Fixture database: a user with no preference row at all. -/
def dbNoPrefs : DB := ⟨[userA], [], [postA], []⟩

/-- Fixture environment: both transports always fail. -/
def envFailAll : Env :=
  ⟨true, some "smtp-user", some "smtp-pass",
    fun _ => some "Telegram error: boom", fun _ => some "SMTP error: boom"⟩

/-- Fixture environment: both transports always succeed. -/
def envOk : Env :=
  ⟨true, some "smtp-user", some "smtp-pass", fun _ => none, fun _ => none⟩

/-- Fixture environment: the email transport fails on its first two
invocations and succeeds afterwards. -/
def envFailTwice : Env :=
  ⟨true, some "smtp-user", some "smtp-pass",
    fun _ => some "Telegram error: boom",
    fun n => if n < 2 then some ("SMTP error: attempt " ++ toString n) else none⟩

/-- Fixture: user 1's preferences with both channels disabled but reminders
on. -/
def prefsNoChannels : NotificationPreferencesRow :=
  { user_id := 1, receive_email_notifications := false,
    receive_telegram_notifications := false, daily_reminder_enabled := true,
    daily_reminder_time := ⟨9, 5, 0⟩ }

/-- Fixture database: user 1 with no enabled channels. -/
def dbNoChannels : DB := ⟨[userA], [prefsNoChannels], [], []⟩

/-- Fixture request: set the reminder time to `"14:30:00"`. -/
def reqTime1430 : UpdateNotificationSettingsRequest :=
  { daily_reminder_time := some "14:30:00" }

/-- Fixture request: a reminder time missing the zero padding required by
the validation pattern. -/
def reqBadTime : UpdateNotificationSettingsRequest :=
  { daily_reminder_time := some "9:05:00" }

/-! ### Helper lemmas -/

/-- Numeral normalization for transport-counter arithmetic. -/
theorem tick_add_one_one (n : Nat) : n + 1 + 1 = n + 2 := rfl

/-- When the user lookup succeeds and every preference row found enables the
requested channel, `send_post_notification` reaches its dispatch-and-log
tail. -/
theorem send_post_notification_passes_checks (env : Env) (s : SendState)
    (user_id : Nat) (post : PostRow) (channel : String) (u : UserRow)
    (hu : s.db.users.find? (fun x => x.id == user_id) = some u)
    (hpref : ∀ p, s.db.preferences.find? (fun x => x.user_id == user_id) = some p →
      (channel = "email" → p.receive_email_notifications = true) ∧
      (channel = "telegram" → p.receive_telegram_notifications = true)) :
    send_post_notification env s user_id post channel =
      send_post_notification_core env s user_id post channel u := by
  unfold send_post_notification
  rcases hp : s.db.preferences.find? (fun x => x.user_id == user_id) with _ | p
  · simp [hu, hp]
  · obtain ⟨he, ht⟩ := hpref p hp
    by_cases hce : channel = "email"
    · subst hce; simp [hu, hp, he rfl]
    · by_cases hct : channel = "telegram"
      · subst hct; simp [hu, hp, ht rfl]
      · simp [hu, hp, beq_iff_eq, hce, hct]

/-- The dispatch-and-log tail always appends exactly one row, whose status
is `delivered` precisely when the returned success flag is set and whose
error message is the returned one. -/
theorem send_post_notification_core_shape (env : Env) (s : SendState)
    (user_id : Nat) (post : PostRow) (channel : String) (u : UserRow) :
    ∃ res tick, send_post_notification_core env s user_id post channel u =
      (res, { db := log_delivery s.db user_id (some post.id) channel
                (if res.1 then "delivered" else "failed") res.2,
              tick := tick }) := by
  unfold send_post_notification_core
  exact ⟨_, _, rfl⟩

/-! ### C1 -/

/-- C1: for every user whose preference row exists with the requested
channel's enable flag set to false, `send_post_notification` for that
channel returns `(false, "<Channel> notifications disabled")` and leaves the
state — in particular the `DeliveryLog` table — untouched: the
disabled-channel check returns before any adapter call or log write. -/
theorem send_post_notification_disabled_channel_no_log (env : Env)
    (s : SendState) (user_id : Nat) (post : PostRow) (channel : String)
    (u : UserRow) (p : NotificationPreferencesRow)
    (hu : s.db.users.find? (fun x => x.id == user_id) = some u)
    (hp : s.db.preferences.find? (fun x => x.user_id == user_id) = some p)
    (hch : (channel = "email" ∧ p.receive_email_notifications = false)
         ∨ (channel = "telegram" ∧ p.receive_telegram_notifications = false)) :
    send_post_notification env s user_id post channel =
      ((false, some (if channel = "email" then "Email notifications disabled"
                     else "Telegram notifications disabled")), s) := by
  rcases hch with ⟨hc, hflag⟩ | ⟨hc, hflag⟩ <;> subst hc <;>
    simp [send_post_notification, hu, hp, hflag]

/-- Witness for C1 at a concrete database: user 1 has Telegram disabled, so
a Telegram send short-circuits with no log row. -/
theorem send_post_notification_disabled_channel_no_log_witness :
    send_post_notification envFailAll ⟨dbA, 0⟩ 1 postA "telegram" =
      ((false, some "Telegram notifications disabled"), ⟨dbA, 0⟩) := by
  have h := send_post_notification_disabled_channel_no_log envFailAll ⟨dbA, 0⟩
    1 postA "telegram" userA prefsA (by decide) (by decide) (Or.inr ⟨rfl, by decide⟩)
  simpa using h

/-! ### C4 -/

/-- C4: every `send_post_notification` call that passes the user-lookup and
enabled-channel checks writes exactly one `DeliveryLog` row, with status
`delivered` iff the send succeeded (and carrying the returned error
message); and for the Telegram channel with no configured chat id the
adapter is never invoked (the transport counter is unchanged), the result is
the `(false, "Telegram chat ID not configured")` failure rather than an
exception, and one `failed` row is still written. -/
theorem send_post_notification_single_log_row (env : Env) (s : SendState)
    (user_id : Nat) (post : PostRow) (channel : String) (u : UserRow)
    (hu : s.db.users.find? (fun x => x.id == user_id) = some u)
    (hpref : ∀ p, s.db.preferences.find? (fun x => x.user_id == user_id) = some p →
      (channel = "email" → p.receive_email_notifications = true) ∧
      (channel = "telegram" → p.receive_telegram_notifications = true)) :
    (∃ succ err s',
      send_post_notification env s user_id post channel = ((succ, err), s') ∧
      s'.db.delivery_logs = s.db.delivery_logs ++
        [⟨user_id, some post.id, channel,
          if succ then "delivered" else "failed", err⟩])
    ∧ (channel = "telegram" → pyTruthyStr u.telegram_chat_id = false →
        send_post_notification env s user_id post channel =
          ((false, some "Telegram chat ID not configured"),
            { db := log_delivery s.db user_id (some post.id) "telegram" "failed"
                (some "Telegram chat ID not configured"),
              tick := s.tick })) := by
  have hpass := send_post_notification_passes_checks env s user_id post channel u hu hpref
  constructor
  · obtain ⟨res, tick, hcore⟩ := send_post_notification_core_shape env s user_id post channel u
    refine ⟨res.1, res.2,
      { db := log_delivery s.db user_id (some post.id) channel
          (if res.1 then "delivered" else "failed") res.2, tick := tick }, ?_, ?_⟩
    · rw [hpass, hcore]
    · simp
  · intro hct htr
    subst hct
    rw [hpass]
    simp [send_post_notification_core, htr]

/-- Witness for C4: user 1 has all channels enabled but no Telegram chat
id; a Telegram send skips the adapter and writes one `failed` row. -/
theorem send_post_notification_single_log_row_witness :
    send_post_notification envFailAll ⟨dbAllOn, 0⟩ 1 postA "telegram" =
      ((false, some "Telegram chat ID not configured"),
        { db := log_delivery dbAllOn 1 (some postA.id) "telegram" "failed"
            (some "Telegram chat ID not configured"),
          tick := 0 }) := by
  have h := (send_post_notification_single_log_row envFailAll ⟨dbAllOn, 0⟩
    1 postA "telegram" userA (by decide)
    (by
      intro p hp
      have h1 : List.find? (fun x => x.user_id == 1)
          (SendState.mk dbAllOn 0).db.preferences = some prefsAllOn1 := by decide
      have hp' : p = prefsAllOn1 := (Option.some.inj (h1.symm.trans hp)).symm
      subst hp'
      exact ⟨fun _ => rfl, fun _ => rfl⟩)).2 rfl (by decide)
  simpa using h

/-! ### C10 -/

/-- C10: calling `retry_send` with a non-positive `max_retries` on an
existing post does not return a `(success, error)` pair: the attempt loop
never executes and the final `return` references the loop-local `error`
variable, which is unbound, so the call raises an unhandled exception
(modelled as the `none` result).  The `(bool, error)` contract therefore
requires `max_retries ≥ 1`. -/
theorem retry_send_nonpositive_retries_raises (env : Env) (s : SendState)
    (user_id post_id : Nat) (channel : String) (max_retries : Int)
    (hm : max_retries ≤ 0) (post : PostRow)
    (hpost : s.db.posts.find? (fun p => p.id == post_id) = some post) :
    retry_send env s user_id post_id channel max_retries = none := by
  have h0 : max_retries.toNat = 0 := Int.toNat_of_nonpos hm
  simp [retry_send, hpost, h0, retry_send_go]

/-- Witness for C10: `max_retries = 0` on an existing post raises. -/
theorem retry_send_nonpositive_retries_raises_witness :
    retry_send envFailAll ⟨dbA, 0⟩ 1 7 "email" 0 = none :=
  retry_send_nonpositive_retries_raises envFailAll ⟨dbA, 0⟩ 1 7 "email" 0
    (by decide) postA (by decide)

/-! ### C6 -/

/-- Counterexample to C6 as stated: for a user with no preference row, the
settings read lazily creates the row with chat (Telegram) notifications
enabled = `true`, not `false` as the claim asserts. -/
theorem get_settings_default_chat_enabled_cex :
    ((get_notification_settings dbNoPrefs 1).1).receive_telegram_notifications
      = true := by decide

/-- C6 (amended): for every user with no `NotificationPreferences` row,
reading the settings endpoint does not raise (the embedding is a total
function) and returns, after lazily creating the row, the defaults
email = true, Telegram (chat) = true, daily reminder = false, reminder time
09:00:00 — serialized as `"09:00:00"`. -/
theorem get_settings_lazy_defaults (db : DB) (uid : Nat)
    (h : db.preferences.find? (fun p => p.user_id == uid) = none) :
    (get_notification_settings db uid).1 =
      { user_id := uid, receive_email_notifications := true,
        receive_telegram_notifications := true,
        daily_reminder_enabled := false, daily_reminder_time := ⟨9, 0, 0⟩ } ∧
    timeToStr ((get_notification_settings db uid).1).daily_reminder_time
      = "09:00:00" ∧
    (get_notification_settings db uid).2.preferences =
      db.preferences ++ [(get_notification_settings db uid).1] := by
  refine ⟨?_, ?_, ?_⟩
  · simp [get_notification_settings, h]
  · simp only [get_notification_settings, h]
    rfl
  · simp [get_notification_settings, h]

/-- Witness for C6 (amended) at a concrete database with no preference
rows. -/
theorem get_settings_lazy_defaults_witness :
    (get_notification_settings dbNoPrefs 1).1 =
      { user_id := 1, receive_email_notifications := true,
        receive_telegram_notifications := true,
        daily_reminder_enabled := false, daily_reminder_time := ⟨9, 0, 0⟩ } :=
  (get_settings_lazy_defaults dbNoPrefs 1 (by decide)).1

/-! ### C7 and C9: the scheduler tick -/

/-- The invoked-users list of the per-row tick loop is the matching rows'
user ids appended to the accumulator, independently of the exception oracle
and the evolving send state. -/
theorem check_go_invoked (env : Env) (raises : Nat → Bool) (h m : Nat)
    (l : List NotificationPreferencesRow) :
    ∀ (s : SendState) (inv : List Nat),
      (check_and_send_reminders_go env raises h m l s inv).invoked =
        inv ++ (l.filter (fun p => reminder_matches p.daily_reminder_time h m)).map
          (fun p => p.user_id) := by
  induction l with
  | nil => intro s inv; simp [check_and_send_reminders_go]
  | cons p rest ih =>
    intro s inv
    by_cases hp : reminder_matches p.daily_reminder_time h m
    · simp [check_and_send_reminders_go, hp, ih]
    · simp [check_and_send_reminders_go, hp, ih]

/-- C7: on an hourly tick a preference row fires iff its configured hour
equals the current hour and its minute is within strictly 15 minutes of the
current minute — the invoked users of `check_and_send_reminders` are exactly
the reminder-enabled rows matching that window; consequently a row with
`daily_reminder_time = 09:05` fires exactly when the current time lies in
[09:00, 09:19] and never in any other hour. -/
theorem reminder_window_nine_oh_five :
    (∀ env raises s h m,
      (check_and_send_reminders env raises s h m).invoked =
        ((s.db.preferences.filter (fun p => p.daily_reminder_enabled)).filter
          (fun p => reminder_matches p.daily_reminder_time h m)).map
          (fun p => p.user_id)) ∧
    (∀ h m : Nat, reminder_matches ⟨9, 5, 0⟩ h m = true ↔ h = 9 ∧ m ≤ 19) := by
  constructor
  · intro env raises s h m
    simpa using check_go_invoked env raises h m
      (s.db.preferences.filter (fun p => p.daily_reminder_enabled)) s []
  · intro h m
    simp only [reminder_matches, Bool.and_eq_true, beq_iff_eq, decide_eq_true_eq]
    constructor
    · rintro ⟨hh, hm⟩
      exact ⟨hh.symm, by omega⟩
    · rintro ⟨hh, hm⟩
      exact ⟨hh.symm, by omega⟩

/-- Witness for C7: at 09:19 the 09:05 reminder fires. -/
theorem reminder_window_nine_oh_five_witness :
    reminder_matches ⟨9, 5, 0⟩ 9 19 = true :=
  (reminder_window_nine_oh_five.2 9 19).mpr ⟨rfl, by omega⟩

/-- C9: during a scheduler tick, per-user exceptions (any oracle `raises`)
never change which users the reminder-send path is invoked for — the
invoked list is the same as with no exceptions at all — and every
reminder-enabled preference row matching the window has its user invoked. -/
theorem reminder_tick_exception_isolation (env : Env) (s : SendState)
    (h m : Nat) (raises raises' : Nat → Bool) :
    (check_and_send_reminders env raises s h m).invoked =
      (check_and_send_reminders env raises' s h m).invoked ∧
    (∀ p ∈ s.db.preferences, p.daily_reminder_enabled = true →
      reminder_matches p.daily_reminder_time h m = true →
      p.user_id ∈ (check_and_send_reminders env raises s h m).invoked) := by
  have key : ∀ r : Nat → Bool,
      (check_and_send_reminders env r s h m).invoked =
        ((s.db.preferences.filter (fun p => p.daily_reminder_enabled)).filter
          (fun p => reminder_matches p.daily_reminder_time h m)).map
          (fun p => p.user_id) := by
    intro r
    simpa using check_go_invoked env r h m
      (s.db.preferences.filter (fun p => p.daily_reminder_enabled)) s []
  refine ⟨(key raises).trans (key raises').symm, ?_⟩
  intro p hp hen hmatch
  rw [key raises]
  exact List.mem_map_of_mem _
    (List.mem_filter.mpr ⟨List.mem_filter.mpr ⟨hp, hen⟩, hmatch⟩)

/-- Witness for C9: with an exception oracle that raises for user 1, user 2
is still invoked on the 09:10 tick. -/
theorem reminder_tick_exception_isolation_witness :
    2 ∈ (check_and_send_reminders envOk (fun u => u == 1) ⟨dbA, 0⟩ 9 10).invoked :=
  (reminder_tick_exception_isolation envOk ⟨dbA, 0⟩ 9 10 (fun u => u == 1)
      (fun _ => false)).2 prefsB (by decide) (by decide) (by decide)

/-! ### C5 -/

/-- Counterexample to C5 as stated: (i) when the email fallback attempt
fails, `send_daily_reminder` returns the failure but writes NO log row —
the claim's "logs that attempt's outcome (delivered or failed)" is false
for failed attempts; (ii) the no-channel message is capitalized
`"No notification channels enabled"`, not
`"no notification channels enabled"`. -/
theorem send_daily_reminder_fallback_cex :
    (send_daily_reminder envFailAll ⟨dbA, 0⟩ 1 =
        ((false, some "SMTP error: boom"), ⟨dbA, 1⟩) ∧
      (send_daily_reminder envFailAll ⟨dbA, 0⟩ 1).2.db.delivery_logs = []) ∧
    (send_daily_reminder envOk ⟨dbNoChannels, 0⟩ 1 =
        ((false, some "No notification channels enabled"), ⟨dbNoChannels, 0⟩) ∧
      (send_daily_reminder envOk ⟨dbNoChannels, 0⟩ 1).1.2 ≠
        some "no notification channels enabled") := by
  refine ⟨⟨?_, ?_⟩, ?_, ?_⟩ <;> decide

/-- C5 (amended): `send_daily_reminder`, for a user with reminders enabled,
attempts Telegram first when it is enabled and a destination is configured,
logging one `delivered` row and returning success if it delivers; when
Telegram is not attempted (or, having been attempted, failed), it falls back
to email when email is enabled — a successful email attempt logs one
`delivered` row and returns success, while a failed email attempt returns
`(false, error)` WITHOUT writing a log row; and when email is not enabled it
returns `(false, "No notification channels enabled")` with no log row. -/
theorem send_daily_reminder_channel_fallback (env : Env) (s : SendState)
    (user_id : Nat) (u : UserRow) (p : NotificationPreferencesRow)
    (hu : s.db.users.find? (fun x => x.id == user_id) = some u)
    (hp : s.db.preferences.find? (fun x => x.user_id == user_id) = some p)
    (hrem : p.daily_reminder_enabled = true) :
    (p.receive_telegram_notifications = true →
      pyTruthyStr u.telegram_chat_id = true →
      env.telegram_bot_configured = true →
      env.telegramTransport s.tick = none →
      send_daily_reminder env s user_id =
        ((true, none),
          { db := log_delivery s.db user_id none "telegram" "delivered" none,
            tick := s.tick + 1 })) ∧
    ((p.receive_telegram_notifications = false ∨ pyTruthyStr u.telegram_chat_id = false) →
      p.receive_email_notifications = true →
      pyTruthyStr env.smtp_username = true →
      pyTruthyStr env.smtp_password = true →
      env.emailTransport s.tick = none →
      send_daily_reminder env s user_id =
        ((true, none),
          { db := log_delivery s.db user_id none "email" "delivered" none,
            tick := s.tick + 1 })) ∧
    ((p.receive_telegram_notifications = false ∨ pyTruthyStr u.telegram_chat_id = false) →
      p.receive_email_notifications = true →
      pyTruthyStr env.smtp_username = true →
      pyTruthyStr env.smtp_password = true →
      ∀ e, env.emailTransport s.tick = some e →
      send_daily_reminder env s user_id =
        ((false, some e), { s with tick := s.tick + 1 })) ∧
    ((p.receive_telegram_notifications = false ∨ pyTruthyStr u.telegram_chat_id = false) →
      p.receive_email_notifications = false →
      send_daily_reminder env s user_id =
        ((false, some "No notification channels enabled"), s)) ∧
    (p.receive_telegram_notifications = true →
      pyTruthyStr u.telegram_chat_id = true →
      env.telegram_bot_configured = true →
      p.receive_email_notifications = false →
      ∀ e, env.telegramTransport s.tick = some e →
      send_daily_reminder env s user_id =
        ((false, some "No notification channels enabled"),
          { s with tick := s.tick + 1 })) ∧
    (p.receive_telegram_notifications = true →
      pyTruthyStr u.telegram_chat_id = true →
      env.telegram_bot_configured = true →
      p.receive_email_notifications = true →
      pyTruthyStr env.smtp_username = true →
      pyTruthyStr env.smtp_password = true →
      ∀ e1, env.telegramTransport s.tick = some e1 →
      env.emailTransport (s.tick + 1) = none →
      send_daily_reminder env s user_id =
        ((true, none),
          { db := log_delivery s.db user_id none "email" "delivered" none,
            tick := s.tick + 2 })) ∧
    (p.receive_telegram_notifications = true →
      pyTruthyStr u.telegram_chat_id = true →
      env.telegram_bot_configured = true →
      p.receive_email_notifications = true →
      pyTruthyStr env.smtp_username = true →
      pyTruthyStr env.smtp_password = true →
      ∀ e1 e2, env.telegramTransport s.tick = some e1 →
      env.emailTransport (s.tick + 1) = some e2 →
      send_daily_reminder env s user_id =
        ((false, some e2), { s with tick := s.tick + 2 })) := by
  refine ⟨?_, ?_, ?_, ?_, ?_, ?_, ?_⟩
  · intro htg hcid hbot htr
    simp [send_daily_reminder, hu, hp, hrem, htg, hcid,
      send_telegram_message, hbot, htr]
  · intro hgate hem hsu hsp htr
    rcases hgate with hgate | hgate <;>
      simp [send_daily_reminder, hu, hp, hrem, hgate,
        send_daily_reminder_email_fallback, hem, send_email, hsu, hsp, htr]
  · intro hgate hem hsu hsp e htr
    rcases hgate with hgate | hgate <;>
      simp [send_daily_reminder, hu, hp, hrem, hgate,
        send_daily_reminder_email_fallback, hem, send_email, hsu, hsp, htr]
  · intro hgate hem
    rcases hgate with hgate | hgate <;>
      simp [send_daily_reminder, hu, hp, hrem, hgate,
        send_daily_reminder_email_fallback, hem]
  · intro htg hcid hbot hem e htr
    simp [send_daily_reminder, hu, hp, hrem, htg, hcid,
      send_telegram_message, hbot, htr,
      send_daily_reminder_email_fallback, hem]
  · intro htg hcid hbot hem hsu hsp e1 htr1 htr2
    simp [send_daily_reminder, hu, hp, hrem, htg, hcid,
      send_telegram_message, hbot, htr1,
      send_daily_reminder_email_fallback, hem, send_email, hsu, hsp,
      htr2, tick_add_one_one]
  · intro htg hcid hbot hem hsu hsp e1 e2 htr1 htr2
    simp [send_daily_reminder, hu, hp, hrem, htg, hcid,
      send_telegram_message, hbot, htr1,
      send_daily_reminder_email_fallback, hem, send_email, hsu, hsp,
      htr2, tick_add_one_one]

/-- Witness for C5 (amended): user 1 has Telegram disabled and email
enabled; with a working SMTP transport the reminder is delivered by email
and one `delivered` row is logged. -/
theorem send_daily_reminder_channel_fallback_witness :
    send_daily_reminder envOk ⟨dbA, 0⟩ 1 =
      ((true, none),
        { db := log_delivery dbA 1 none "email" "delivered" none,
          tick := 1 }) := by
  have h := (send_daily_reminder_channel_fallback envOk ⟨dbA, 0⟩ 1 userA prefsA
    (by decide) (by decide) (by decide)).2.1 (Or.inl (by decide)) (by decide)
    (by decide) (by decide) rfl
  simpa using h

/-! ### C2: the retry loop -/

/-- Splitting the backoff-sequence formula at the last attempt. -/
theorem drop_one_range_succ_map (f : Nat → Nat) (n : Nat) :
    ((List.range (n + 1)).drop 1).map f =
      ((List.range n).drop 1).map f ++ (if 0 < n then [f n] else []) := by
  cases n with
  | zero => simp
  | succ k =>
    rw [List.range_succ, List.drop_append_of_le_length (by simp)]
    simp

/-- Invariant-carrying characterization of the `retry_send` attempt loop:
whenever the loop still has at least one iteration to run (or has already
run one), it returns a result whose attempt count is bounded by the
remaining fuel, whose sleep list is exactly the backoff sequence
`2^1, 2^2, …` for the attempts after the first, and which, when every
attempt failed, carries the last attempt's error in the final message. -/
theorem retry_send_go_spec (env : Env) (user_id : Nat) (post : PostRow)
    (post_id : Nat) (channel : String) (max_retries : Int) :
    ∀ (fuel attempt : Nat) (s : SendState) (sleeps : List Nat)
      (outcomes : List (Bool × Option String)) (lastErr : Option (Option String)),
      attempt = outcomes.length →
      sleeps = ((List.range attempt).drop 1).map (fun a => 2 ^ a) →
      (outcomes = [] → lastErr = none) →
      (∀ o, outcomes.getLast? = some o → lastErr = some o.2) →
      1 ≤ fuel + attempt →
      ∃ r, retry_send_go env user_id post post_id channel max_retries
          fuel attempt s sleeps outcomes lastErr = some r ∧
        outcomes.length + min fuel 1 ≤ r.outcomes.length ∧
        r.outcomes.length ≤ attempt + fuel ∧
        r.sleeps = ((List.range r.outcomes.length).drop 1).map (fun a => 2 ^ a) ∧
        ((∀ o ∈ r.outcomes, o.1 = false) →
          r.outcomes.length = attempt + fuel ∧
          ∃ e, r.outcomes.getLast? = some (false, e) ∧
            r.result = (false, some ("Failed after " ++ toString max_retries
              ++ " attempts: " ++ pyStrOfOpt e))) := by
  intro fuel
  induction fuel with
  | zero =>
    intro attempt s sleeps outcomes lastErr h1 h2 _ h4 h5
    have hne : outcomes ≠ [] := by
      intro hnil
      rw [hnil] at h1
      simp at h1
      omega
    obtain ⟨o, ho⟩ := Option.isSome_iff_exists.mp (List.getLast?_isSome.mpr hne)
    have hle : lastErr = some o.2 := h4 o ho
    subst hle
    refine ⟨⟨(false, some ("Failed after " ++ toString max_retries
        ++ " attempts: " ++ pyStrOfOpt o.2)), s, sleeps, outcomes⟩,
      rfl, ?_, ?_, ?_, ?_⟩
    · show outcomes.length + min 0 1 ≤ outcomes.length
      omega
    · show outcomes.length ≤ attempt + 0
      omega
    · show sleeps = ((List.range outcomes.length).drop 1).map (fun a => 2 ^ a)
      rw [h2, h1]
    · intro hall
      refine ⟨?_, o.2, ?_, rfl⟩
      · show outcomes.length = attempt + 0
        omega
      · show outcomes.getLast? = some (false, o.2)
        have hmem : o ∈ outcomes := List.mem_of_mem_getLast? ho
        have hfst : o.1 = false := hall o hmem
        have heo : (false, o.2) = o := by rw [← hfst]
        rw [heo]
        exact ho
  | succ fuel ih =>
    intro attempt s sleeps outcomes lastErr h1 h2 _ _ _
    rcases hres : send_post_notification env s user_id post channel with ⟨⟨succ, err⟩, s'⟩
    have hsleeps : (if 0 < attempt then sleeps ++ [2 ^ attempt] else sleeps) =
        ((List.range (outcomes.length + 1)).drop 1).map (fun a => 2 ^ a) := by
      rw [drop_one_range_succ_map, h2, h1]
      by_cases h0 : 0 < outcomes.length <;> simp [h0]
    cases succ with
    | true =>
      refine ⟨⟨(true, none),
        (if 0 < attempt then
          { s' with db := log_delivery s'.db user_id (some post_id) channel "retried" none }
         else s'),
        (if 0 < attempt then sleeps ++ [2 ^ attempt] else sleeps),
        outcomes ++ [(true, err)]⟩, ?_, ?_, ?_, ?_, ?_⟩
      · simp [retry_send_go, hres]
      · show outcomes.length + min (fuel + 1) 1 ≤ (outcomes ++ [(true, err)]).length
        simp only [List.length_append, List.length_singleton]
        omega
      · show (outcomes ++ [(true, err)]).length ≤ attempt + (fuel + 1)
        simp only [List.length_append, List.length_singleton]
        omega
      · simpa using hsleeps
      · intro hall
        have := hall (true, err) (by simp)
        simp at this
    | false =>
      obtain ⟨r, hr, c1, c2, c3, c4⟩ := ih (attempt + 1) s'
        (if 0 < attempt then sleeps ++ [2 ^ attempt] else sleeps)
        (outcomes ++ [(false, err)]) (some err)
        (by simp [← h1])
        (by rw [hsleeps, h1])
        (by simp)
        (by
          intro o ho
          rw [List.getLast?_concat] at ho
          cases ho
          rfl)
        (by omega)
      refine ⟨r, ?_, by simp at c1 ⊢; omega, by omega, c3, ?_⟩
      · simp only [retry_send_go, hres]
        exact hr
      · intro hall
        obtain ⟨hlen, e, hlast, hresult⟩ := c4 hall
        exact ⟨by omega, e, hlast, hresult⟩

/-- Counterexample to C2 as stated: with `max_retries = 3` and an
always-failing transport, the sleep durations are `[2, 4]` — the backoff
sequence is 2, 4, 8, … time units (`2^attempt` for attempt = 1, 2, …), not
1, 2, 4, … as the claim asserts (which would predict `[1, 2]` here). -/
theorem retry_send_backoff_cex :
    (retry_send envFailAll ⟨dbA, 0⟩ 1 7 "email" 3).map RetryResult.sleeps
      = some [2, 4] ∧
    (retry_send envFailAll ⟨dbA, 0⟩ 1 7 "email" 3).map RetryResult.sleeps
      ≠ some [1, 2] := by
  constructor <;> decide

/-- C2 (amended): for every `max_retries ≥ 1` on an existing post,
`retry_send` performs at least one and at most `max_retries` attempts (so it
always terminates and returns a pair rather than raising); before each
attempt after the first it sleeps `2^attempt` time units, giving the backoff
sequence 2, 4, 8, … units; and if every attempt fails it performs exactly
`max_retries` attempts and returns failure carrying the last attempt's
error message inside `"Failed after <max_retries> attempts: <error>"`. -/
theorem retry_send_bounded_backoff_last_error (env : Env) (s : SendState)
    (user_id post_id : Nat) (channel : String) (max_retries : Int)
    (hm : 1 ≤ max_retries) (post : PostRow)
    (hpost : s.db.posts.find? (fun p => p.id == post_id) = some post) :
    ∃ r, retry_send env s user_id post_id channel max_retries = some r ∧
      1 ≤ r.outcomes.length ∧ (r.outcomes.length : Int) ≤ max_retries ∧
      r.sleeps = ((List.range r.outcomes.length).drop 1).map (fun a => 2 ^ a) ∧
      ((∀ o ∈ r.outcomes, o.1 = false) →
        (r.outcomes.length : Int) = max_retries ∧
        ∃ e, r.outcomes.getLast? = some (false, e) ∧
          r.result = (false, some ("Failed after " ++ toString max_retries
            ++ " attempts: " ++ pyStrOfOpt e))) := by
  have hfuel : 1 ≤ max_retries.toNat := by omega
  obtain ⟨r, hr, c1, c2, c3, c4⟩ := retry_send_go_spec env user_id post post_id
    channel max_retries max_retries.toNat 0 s [] [] none rfl rfl
    (fun _ => rfl) (by intro o ho; simp at ho) (by omega)
  have hcast : (max_retries.toNat : Int) = max_retries :=
    Int.toNat_of_nonneg (by omega)
  refine ⟨r, ?_, by omega, by omega, c3, ?_⟩
  · simp [retry_send, hpost]
    exact hr
  · intro hall
    obtain ⟨hlen, e, hlast, hresult⟩ := c4 hall
    exact ⟨by omega, e, hlast, hresult⟩

/-- Witness for C2 (amended) at `max_retries = 3` with an always-failing
transport. -/
theorem retry_send_bounded_backoff_last_error_witness :
    ∃ r, retry_send envFailAll ⟨dbA, 0⟩ 1 7 "email" 3 = some r ∧
      1 ≤ r.outcomes.length ∧ (r.outcomes.length : Int) ≤ 3 ∧
      r.sleeps = ((List.range r.outcomes.length).drop 1).map (fun a => 2 ^ a) ∧
      ((∀ o ∈ r.outcomes, o.1 = false) →
        (r.outcomes.length : Int) = 3 ∧
        ∃ e, r.outcomes.getLast? = some (false, e) ∧
          r.result = (false, some ("Failed after " ++ toString (3 : Int)
            ++ " attempts: " ++ pyStrOfOpt e))) :=
  retry_send_bounded_backoff_last_error envFailAll ⟨dbA, 0⟩ 1 7 "email" 3
    (by decide) postA (by decide)

/-! ### C3 -/

/-- C3: if the first two attempts of `retry_send` (with the default
`max_retries = 3`) fail at the adapter — the delivery attempt is made and
logged — and the third succeeds, then exactly four `DeliveryLog` rows are
appended: two `failed`, one `delivered`, and one `retried` (the latter only
because success occurred on a non-first attempt), and `retry_send` returns
success with no error. -/
theorem retry_send_fail_fail_succeed_logs (env : Env) (s : SendState)
    (user_id post_id : Nat) (channel : String) (u : UserRow)
    (p : NotificationPreferencesRow) (post : PostRow) (e1 e2 : String)
    (hu : s.db.users.find? (fun x => x.id == user_id) = some u)
    (hp : s.db.preferences.find? (fun x => x.user_id == user_id) = some p)
    (hpost : s.db.posts.find? (fun x => x.id == post_id) = some post)
    (hcase :
      (channel = "email" ∧ p.receive_email_notifications = true ∧
        pyTruthyStr env.smtp_username = true ∧
        pyTruthyStr env.smtp_password = true ∧
        env.emailTransport s.tick = some e1 ∧
        env.emailTransport (s.tick + 1) = some e2 ∧
        env.emailTransport (s.tick + 2) = none) ∨
      (channel = "telegram" ∧ p.receive_telegram_notifications = true ∧
        env.telegram_bot_configured = true ∧
        pyTruthyStr u.telegram_chat_id = true ∧
        env.telegramTransport s.tick = some e1 ∧
        env.telegramTransport (s.tick + 1) = some e2 ∧
        env.telegramTransport (s.tick + 2) = none)) :
    (retry_send env s user_id post_id channel 3).map RetryResult.result
      = some (true, none) ∧
    (retry_send env s user_id post_id channel 3).map
        (fun r => r.state.db.delivery_logs)
      = some (s.db.delivery_logs ++
        [⟨user_id, some post.id, channel, "failed", some e1⟩,
         ⟨user_id, some post.id, channel, "failed", some e2⟩,
         ⟨user_id, some post.id, channel, "delivered", none⟩,
         ⟨user_id, some post_id, channel, "retried", none⟩]) := by
  rcases hcase with ⟨hc, hflag, hsu, hsp, ht0, ht1, ht2⟩
    | ⟨hc, hflag, hbot, hcid, ht0, ht1, ht2⟩ <;> subst hc
  · constructor <;>
      simp [retry_send, hpost, retry_send_go, send_post_notification, hu, hp,
        hflag, send_post_notification_core, send_email, hsu, hsp,
        ht0, ht1, ht2, tick_add_one_one, log_delivery]
  · constructor <;>
      simp [retry_send, hpost, retry_send_go, send_post_notification, hu, hp,
        hflag, send_post_notification_core, send_telegram_message, hbot, hcid,
        ht0, ht1, ht2, tick_add_one_one, log_delivery]

/-- Witness for C3: user 1, email channel, an email transport that fails on
its first two invocations and succeeds on the third. -/
theorem retry_send_fail_fail_succeed_logs_witness :
    (retry_send envFailTwice ⟨dbA, 0⟩ 1 7 "email" 3).map
        (fun r => r.state.db.delivery_logs)
      = some
        [⟨1, some 7, "email", "failed", some "SMTP error: attempt 0"⟩,
         ⟨1, some 7, "email", "failed", some "SMTP error: attempt 1"⟩,
         ⟨1, some 7, "email", "delivered", none⟩,
         ⟨1, some 7, "email", "retried", none⟩] := by
  have h := (retry_send_fail_fail_succeed_logs envFailTwice ⟨dbA, 0⟩ 1 7 "email"
    userA prefsA postA "SMTP error: attempt 0" "SMTP error: attempt 1"
    (by decide) (by decide) (by decide)
    (Or.inl ⟨rfl, by decide, by decide, by decide, by decide, by decide, by decide⟩)).2
  simpa [dbA, postA] using h

/-! ### C8 -/

/-- Appending a row to a list in which `find?` fails makes `find?` return
that row (when it satisfies the predicate). -/
theorem find?_append_singleton {α : Type} (pred : α → Bool) (l : List α)
    (x : α) (hl : l.find? pred = none) (hx : pred x = true) :
    (l ++ [x]).find? pred = some x := by
  induction l with
  | nil => simp [List.find?_cons_of_pos _ hx]
  | cons a rest ih =>
    by_cases ha : pred a = true
    · rw [List.find?_cons_of_pos _ ha] at hl
      cases hl
    · rw [List.find?_cons_of_neg _ ha] at hl
      rw [List.cons_append, List.find?_cons_of_neg _ ha]
      exact ih hl

/-- Replacing every matching row of a list by `p'` (itself matching) makes
`find?` return `p'` whenever the original `find?` succeeded. -/
theorem find?_map_replace (uid : Nat) (p' : NotificationPreferencesRow)
    (hp' : (p'.user_id == uid) = true) (l : List NotificationPreferencesRow)
    (q : NotificationPreferencesRow)
    (hq : l.find? (fun r => r.user_id == uid) = some q) :
    (l.map (fun r => if r.user_id == uid then p' else r)).find?
      (fun r => r.user_id == uid) = some p' := by
  induction l with
  | nil => simp at hq
  | cons a rest ih =>
    by_cases ha : (a.user_id == uid) = true
    · simp only [List.map_cons, if_pos ha]
      exact List.find?_cons_of_pos _ hp'
    · rw [List.find?_cons_of_neg (p := fun r => r.user_id == uid) rest ha] at hq
      simp only [List.map_cons, if_neg ha]
      rw [List.find?_cons_of_neg (p := fun r : NotificationPreferencesRow => r.user_id == uid) _ ha]
      exact ih hq

/-- Counterexample to C8 as stated: the update `"9:05:00"` violates the
validation pattern (one-digit hour) and is rejected by request-body
validation with HTTP 422 — not 400 — before any preference change; the
handler's own 400 fires only for parse failures, which pattern-valid
strings can never trigger. -/
theorem update_settings_pattern_status_cex :
    update_notification_settings dbA 1 reqBadTime = (.clientError 422, dbA) ∧
    (update_notification_settings dbA 1 reqBadTime).1 ≠ .clientError 400 := by
  constructor <;> decide

/-- C8 (amended): updating `daily_reminder_time` through the settings
endpoint with the valid string `"14:30:00"` and then reading settings
returns the identical zero-padded `HH:MM:SS` string; strings not matching
the `HH:MM:SS` validation pattern are rejected by request-body validation
(HTTP 422, the framework default — not 400) before any preference
change. -/
theorem update_settings_roundtrip_validation (db : DB) (uid : Nat) :
    (∃ p' db',
      update_notification_settings db uid reqTime1430 = (.ok p', db') ∧
      p'.daily_reminder_time = ⟨14, 30, 0⟩ ∧
      timeToStr p'.daily_reminder_time = "14:30:00" ∧
      (get_notification_settings db' uid).1 = p' ∧
      timeToStr ((get_notification_settings db' uid).1).daily_reminder_time
        = "14:30:00") ∧
    (∀ req : UpdateNotificationSettingsRequest, ∀ tstr,
      req.daily_reminder_time = some tstr →
      matchesTimePattern tstr = false →
      update_notification_settings db uid req = (.clientError 422, db)) := by
  constructor
  · have hval : matchesTimePattern "14:30:00" = true := by decide
    have hparse : pyParseTime "14:30:00" = some ⟨14, 30, 0⟩ := by decide
    rcases hf : db.preferences.find? (fun r => r.user_id == uid) with _ | q
    · refine ⟨⟨uid, true, true, false, ⟨14, 30, 0⟩⟩, { db with preferences := db.preferences ++ [⟨uid, true, true, false, ⟨14, 30, 0⟩⟩] }, ?_, rfl, ?_, ?_, ?_⟩
      · simp [update_notification_settings, update_notification_settings_handler,
          reqTime1430, hval, hparse, hf, defaultPreferencesRow]
      · show timeToStr (⟨14, 30, 0⟩ : PyTime) = "14:30:00"
        decide
      · have hfind : List.find? (fun r => r.user_id == uid) ({ db with preferences := db.preferences ++ [(⟨uid, true, true, false, ⟨14, 30, 0⟩⟩ : NotificationPreferencesRow)] } : DB).preferences = some ⟨uid, true, true, false, ⟨14, 30, 0⟩⟩ :=
          find?_append_singleton (fun r => r.user_id == uid) db.preferences _ hf (by simp)
        simp only [get_notification_settings]
        rw [hfind]
      · have hfind : List.find? (fun r => r.user_id == uid) ({ db with preferences := db.preferences ++ [(⟨uid, true, true, false, ⟨14, 30, 0⟩⟩ : NotificationPreferencesRow)] } : DB).preferences = some ⟨uid, true, true, false, ⟨14, 30, 0⟩⟩ :=
          find?_append_singleton (fun r => r.user_id == uid) db.preferences _ hf (by simp)
        simp only [get_notification_settings]
        rw [hfind]
        show timeToStr (⟨14, 30, 0⟩ : PyTime) = "14:30:00"
        decide
    · have hq : (q.user_id == uid) = true := by
        simpa using List.find?_some hf
      refine ⟨{ q with daily_reminder_time := ⟨14, 30, 0⟩ }, { db with preferences := db.preferences.map (fun r => if r.user_id == uid then { q with daily_reminder_time := ⟨14, 30, 0⟩ } else r) }, ?_, rfl, ?_, ?_, ?_⟩
      · simp [update_notification_settings, update_notification_settings_handler,
          reqTime1430, hval, hparse, hf]
      · show timeToStr (⟨14, 30, 0⟩ : PyTime) = "14:30:00"
        decide
      · have hfind : List.find? (fun r => r.user_id == uid) ({ db with preferences := db.preferences.map (fun r => if r.user_id == uid then { q with daily_reminder_time := ⟨14, 30, 0⟩ } else r) } : DB).preferences = some { q with daily_reminder_time := ⟨14, 30, 0⟩ } :=
          find?_map_replace uid { q with daily_reminder_time := ⟨14, 30, 0⟩ } (by simpa using hq) db.preferences q hf
        simp only [get_notification_settings]
        rw [hfind]
      · have hfind : List.find? (fun r => r.user_id == uid) ({ db with preferences := db.preferences.map (fun r => if r.user_id == uid then { q with daily_reminder_time := ⟨14, 30, 0⟩ } else r) } : DB).preferences = some { q with daily_reminder_time := ⟨14, 30, 0⟩ } :=
          find?_map_replace uid { q with daily_reminder_time := ⟨14, 30, 0⟩ } (by simpa using hq) db.preferences q hf
        simp only [get_notification_settings]
        rw [hfind]
        show timeToStr (⟨14, 30, 0⟩ : PyTime) = "14:30:00"
        decide
  · intro req tstr hreq hbad
    simp [update_notification_settings, hreq, hbad]

/-- Witness for C8 (amended): the concrete malformed string `"9:05:00"` is
rejected with 422 and leaves the database unchanged. -/
theorem update_settings_roundtrip_validation_witness :
    update_notification_settings dbA 1 reqBadTime = (.clientError 422, dbA) :=
  (update_settings_roundtrip_validation dbA 1).2 reqBadTime "9:05:00" rfl
    (by decide)

end Ghostwriter
